import Mathlib

/-!
Verification of the keyring credential-store specification.

The repository source under `src/examples/cli.rs` is the CLI front end; the
credential-store core it calls (`Entry`, `Error`, the backends) is described
by the specification but its code is not among the repository sources given,
so the core is modelled here from the spec, while the CLI functions
(`execute_args`, `execute_set_password`, `execute_get_password_and_credential`,
`execute_delete_password`) are translated from `src/examples/cli.rs`.
-/

namespace Keyring

/-- Modelled from the spec: a secret is an opaque byte/text payload (§3);
the CLI passes it as a string. -/
abbrev Secret := String

/-- Modelled from the spec: backend metadata is a mapping from strings to
strings, possibly empty (§3). -/
abbrev Metadata := List (String × String)

/-- Modelled from the spec: the Locator triple `{keychain, service, username}`
identifying one secret within a store (§3). The core `Locator` type is not in
the repository sources. -/
structure Locator where
  keychain : String
  service : String
  username : String
deriving DecidableEq, Repr

/-- Modelled from the spec: the resolution invariant on a Locator —
`service` and `username` are non-empty after resolution (§3). -/
def Locator.valid (loc : Locator) : Prop :=
  loc.service ≠ "" ∧ loc.username ≠ ""

instance (loc : Locator) : Decidable loc.valid := by
  unfold Locator.valid; infer_instance

/-- Modelled from the spec: the closed Error taxonomy shared by all
backends (§7). The core `Error` type is not in the repository sources. -/
inductive Error where
  | NoEntry
  | NoStorageAccess (diagnostic : String)
  | PlatformFailure (diagnostic : String)
  | Invalid (reason : String)
deriving DecidableEq, Repr

/-- Modelled from the spec: a Credential is the resolved locator, the secret,
and any backend metadata (§3). -/
structure Credential where
  locator : Locator
  secret : Secret
  metadata : Metadata
deriving DecidableEq, Repr

/-- Modelled from the spec: the in-memory test Backend double (§4.1).
`gen` is the backend-specific metadata the double records when a secret is
stored; a backend that cannot produce metadata has `gen` constantly empty.
`entries` is the association list from locators to stored secret and
metadata. -/
structure MemBackend where
  gen : Locator → Metadata
  entries : List (Locator × Secret × Metadata)

/-- Association-list lookup keyed by the full Locator. -/
def findEntry : List (Locator × Secret × Metadata) → Locator → Option (Secret × Metadata)
  | [], _ => none
  | (l, s, m) :: rest, loc => if l = loc then some (s, m) else findEntry rest loc

/-- Remove every binding for a locator from the association list. -/
def removeEntry : List (Locator × Secret × Metadata) → Locator →
    List (Locator × Secret × Metadata)
  | [], _ => []
  | (l, s, m) :: rest, loc =>
      if l = loc then removeEntry rest loc else (l, s, m) :: removeEntry rest loc

/-- Secret and metadata currently stored at a locator, if any. -/
def MemBackend.lookup (b : MemBackend) (loc : Locator) : Option (Secret × Metadata) :=
  findEntry b.entries loc

/-- Modelled from the spec: `store(locator, secret)` writes or overwrites the
secret at the locator, with idempotent overwrite semantics (§4.1); the double
records its generated metadata alongside. -/
def MemBackend.store (b : MemBackend) (loc : Locator) (sec : Secret) : MemBackend :=
  { b with entries := (loc, sec, b.gen loc) :: removeEntry b.entries loc }

/-- Modelled from the spec: `retrieve(locator)`; absence is `NoEntry` (§4.1, §7). -/
def MemBackend.retrieve (b : MemBackend) (loc : Locator) : Except Error Secret :=
  match b.lookup loc with
  | some (s, _) => .ok s
  | none => .error .NoEntry

/-- Modelled from the spec: `retrieve_with_credential(locator)` additionally
returns backend metadata when available; a backend without metadata returns it
empty rather than failing (§4.1). -/
def MemBackend.retrieveWithCredential (b : MemBackend) (loc : Locator) :
    Except Error Credential :=
  match b.lookup loc with
  | some (s, m) => .ok ⟨loc, s, m⟩
  | none => .error .NoEntry

/-- Modelled from the spec: `delete(locator)` removes the secret and
distinguishes "nothing to delete" (`NoEntry`) from access failure (§4.1, §7). -/
def MemBackend.delete (b : MemBackend) (loc : Locator) : Except Error Unit × MemBackend :=
  match b.lookup loc with
  | some _ => (.ok (), { b with entries := removeEntry b.entries loc })
  | none => (.error .NoEntry, b)

/-- Modelled from the spec: an Entry binds exactly one Locator for its
lifetime; it is a handle, not a container of secrets (§3, §4.2). -/
structure Entry where
  locator : Locator
deriving DecidableEq, Repr

/-- Modelled from the spec: Entry construction (`Entry::new_in_keychain`) is
pure data binding that fails only on malformed locator input — an empty
service — with `Invalid` (§4.2, §4.3). -/
def Entry.newInKeychain (keychain service username : String) : Except Error Entry :=
  if service = "" then .error (.Invalid "empty service")
  else .ok ⟨⟨keychain, service, username⟩⟩

/-- Modelled from the spec: construction never touches the platform store
(§4.2); threading the backend state explicitly, construction computes from the
three strings alone and passes the state through. -/
def Entry.newInKeychainWith (keychain service username : String) (b : MemBackend) :
    Except Error Entry × MemBackend :=
  (Entry.newInKeychain keychain service username, b)

/-- Modelled from the spec: `set_password` forwards to the backend store
operation (§4.2). -/
def Entry.setPassword (e : Entry) (sec : Secret) (b : MemBackend) :
    Except Error Unit × MemBackend :=
  (.ok (), b.store e.locator sec)

/-- Modelled from the spec: `get_password` forwards to backend retrieve (§4.2). -/
def Entry.getPassword (e : Entry) (b : MemBackend) : Except Error Secret × MemBackend :=
  (b.retrieve e.locator, b)

/-- Modelled from the spec: `get_password_and_credential` forwards to backend
retrieve-with-metadata (§4.2). -/
def Entry.getPasswordAndCredential (e : Entry) (b : MemBackend) :
    Except Error Credential × MemBackend :=
  (b.retrieveWithCredential e.locator, b)

/-- Modelled from the spec: `delete_password` forwards to backend delete (§4.2). -/
def Entry.deletePassword (e : Entry) (b : MemBackend) : Except Error Unit × MemBackend :=
  b.delete e.locator

/-! CLI front end, translated from `src/examples/cli.rs`. -/

/-- The CLI subcommand (`enum Command` in `cli.rs`). -/
inductive Command where
  | set (password : Option String)
  | get
  | delete
deriving DecidableEq, Repr

/-- The parsed CLI arguments (`struct Cli` in `cli.rs`). `verbose` counts
occurrences of `-v` (a `u8` in the source; small values only are relevant). -/
structure Cli where
  verbose : Nat
  keychain : String
  service : String
  username : Option String
  command : Command
deriving DecidableEq, Repr

/-- One printed line; `out` models `println!`, `err` models `eprintln!`. -/
inductive OutLine where
  | out (s : String)
  | err (s : String)
deriving DecidableEq, Repr

/-- Debug rendering of a string, as in Rust's derived `Debug` for `String`. -/
def strDebug (s : String) : String := "\"" ++ s ++ "\""

/-- Modelled from the spec: the `Display` rendering of an `Error` is an
opaque human-readable message (§7, Glossary); the core whose `Display`
implementation would fix the exact text is not in the repository sources. -/
def Error.displayStr : Error → String
  | .NoEntry => "No matching entry found in secure storage"
  | .NoStorageAccess d => "Couldn\x27t access platform secure storage: " ++ d
  | .PlatformFailure d => "Platform secure storage failure: " ++ d
  | .Invalid r => "Invalid locator: " ++ r

/-- Modelled from the spec: the `Debug` rendering of an `Error`; the exact
text is fixed by the core, which is not in the repository sources. -/
def Error.debugStr : Error → String
  | .NoEntry => "NoEntry"
  | .NoStorageAccess d => "NoStorageAccess(" ++ strDebug d ++ ")"
  | .PlatformFailure d => "PlatformFailure(" ++ strDebug d ++ ")"
  | .Invalid r => "Invalid(" ++ strDebug r ++ ")"

/-- Modelled from the spec: the `Debug` rendering of a `Credential`; the
exact text is fixed by the core, which is not in the repository sources. -/
def Credential.debugStr (c : Credential) : String :=
  "Credential(keychain=" ++ strDebug c.locator.keychain ++
    ", service=" ++ strDebug c.locator.service ++
    ", username=" ++ strDebug c.locator.username ++
    ", metadata=" ++ String.intercalate ", "
      (c.metadata.map (fun p => p.1 ++ "=" ++ p.2)) ++ ")"

/-- `execute_set_password` from `cli.rs`, as a function of the verbosity and
of the result of `entry.set_password`. -/
def executeSetPassword (verbose : Nat) (r : Except Error Unit) : List OutLine :=
  match r with
  | .ok () => [.out "Password set successfully"]
  | .error (.NoStorageAccess e) =>
      .err ("Couldn\x27t set the password: " ++ e) ::
        (if verbose > 1 then [.err ("Error details: " ++ strDebug e)] else [])
  | .error e =>
      .err ("Unexpected error setting the password: " ++ e.displayStr) ::
        (if verbose > 1 then [.err ("Error details: " ++ e.debugStr)] else [])

/-- `execute_get_password_and_credential` from `cli.rs`, as a function of the
verbosity and of the result of `entry.get_password_and_credential`. -/
def executeGetPasswordAndCredential (verbose : Nat) (r : Except Error Credential) :
    List OutLine :=
  match r with
  | .ok c =>
      .out ("Password is \x27" ++ c.secret ++ "\x27") ::
        (if verbose > 0 then [.out ("Credential is: " ++ c.debugStr)] else [])
  | .error .NoEntry =>
      .err "(No password found)" ::
        (if verbose > 1 then [.err ("Error details: " ++ Error.debugStr .NoEntry)] else [])
  | .error (.NoStorageAccess e) =>
      .err ("Couldn\x27t retrieve the password: " ++ e) ::
        (if verbose > 1 then [.err ("Error details: " ++ strDebug e)] else [])
  | .error e =>
      .err ("Unexpected error retrieving the password: " ++ e.displayStr) ::
        (if verbose > 1 then [.err ("Error details: " ++ e.debugStr)] else [])

/-- `execute_delete_password` from `cli.rs`, as a function of the verbosity
and of the result of `entry.delete_password`. -/
def executeDeletePassword (verbose : Nat) (r : Except Error Unit) : List OutLine :=
  match r with
  | .ok () => [.out "(Password deleted)"]
  | .error .NoEntry =>
      .err "(No password found)" ::
        (if verbose > 1 then [.err ("Error details: " ++ Error.debugStr .NoEntry)] else [])
  | .error (.NoStorageAccess e) =>
      .err ("Couldn\x27t delete the password: " ++ e) ::
        (if verbose > 1 then [.err ("Error details: " ++ strDebug e)] else [])
  | .error e =>
      .err ("Unexpected error retrieving the password: " ++ e.displayStr) ::
        (if verbose > 1 then [.err ("Error details: " ++ e.debugStr)] else [])

/-- The locator the CLI binds: `args.username.clone().unwrap_or_else(whoami::username)`
(`cli.rs` lines 51–53); `osLogin` stands for the external `whoami::username`
collaborator. -/
def cliLocator (args : Cli) (osLogin : String) : Locator :=
  ⟨args.keychain, args.service, (args.username).getD osLogin⟩

/-- The entry bound by `execute_args` (`cli.rs` line 53): username resolution
happens first, then the resolved locator is bound into the entry. -/
def cliEntry (args : Cli) (osLogin : String) : Entry :=
  ⟨cliLocator args osLogin⟩

/-- `execute_args` from `cli.rs`. `tty` is the result of the external
`read_password_from_tty` collaborator (`none` models a read failure), and
`osLogin` the external OS login-name provider; the backend state is threaded
explicitly. Returns the printed lines and the resulting backend state. -/
def executeArgs (args : Cli) (tty : Option String) (osLogin : String) (b : MemBackend) :
    List OutLine × MemBackend :=
  let entry := cliEntry args osLogin
  match args.command with
  | .set (some password) =>
      let r := Entry.setPassword entry password b
      (executeSetPassword args.verbose r.1, r.2)
  | .set none =>
      match tty with
      | some password =>
          let r := Entry.setPassword entry password b
          (executeSetPassword args.verbose r.1, r.2)
      | none => ([.err "(Failed to read password, so none set.)"], b)
  | .get =>
      let r := Entry.getPasswordAndCredential entry b
      (executeGetPasswordAndCredential args.verbose r.1, r.2)
  | .delete =>
      let r := Entry.deletePassword entry b
      (executeDeletePassword args.verbose r.1, r.2)

/-! Helper lemmas and concrete instances used by witnesses. -/

theorem findEntry_removeEntry (l : List (Locator × Secret × Metadata)) (loc : Locator) :
    findEntry (removeEntry l loc) loc = none := by
  induction l with
  | nil => rfl
  | cons p rest ih =>
      obtain ⟨l', s, m⟩ := p
      by_cases h : l' = loc
      · simp [removeEntry, h, ih]
      · simp [removeEntry, findEntry, h, ih]

/-- A metadata generator for a double that cannot produce metadata. -/
def noMeta : Locator → Metadata := fun _ => []

/-- A metadata generator for a double that records an account label. -/
def accountMeta : Locator → Metadata := fun loc => [("account", loc.username)]

/-- The example locator from the spec scenario (§8). -/
def demoLoc : Locator := ⟨"default", "keyring", "alice"⟩

/-- An empty in-memory double without metadata. -/
def emptyBackend : MemBackend := ⟨noMeta, []⟩

/-- An empty in-memory double that supplies metadata. -/
def emptyMetaBackend : MemBackend := ⟨accountMeta, []⟩

/-- A double already holding the spec scenario secret at `demoLoc`. -/
def demoBackend : MemBackend := ⟨noMeta, [(demoLoc, "s3cr3t", [])]⟩

/-! Claim theorems. -/

/-- C1: on the in-memory test Backend double, for every valid Locator and
secret, `set_password` followed by `get_password` on the same Locator returns
exactly the secret last written. -/
theorem set_then_get_roundtrip (loc : Locator) (sec : Secret) (b : MemBackend)
    (h : loc.valid) :
    (Entry.getPassword ⟨loc⟩ ((Entry.setPassword ⟨loc⟩ sec b).2)).1 = .ok sec := by
  simp [Entry.getPassword, Entry.setPassword, MemBackend.retrieve, MemBackend.store,
    MemBackend.lookup, findEntry]

/-- Witness for C1 at the spec scenario locator and secret. -/
theorem set_then_get_roundtrip_witness :
    Locator.valid demoLoc ∧
      (Entry.getPassword ⟨demoLoc⟩
        ((Entry.setPassword ⟨demoLoc⟩ "s3cr3t" emptyBackend).2)).1 = .ok "s3cr3t" :=
  ⟨by decide, set_then_get_roundtrip demoLoc "s3cr3t" emptyBackend (by decide)⟩

/-- C2: constructing an Entry with an empty explicit service string fails with
`Invalid` before any Backend operation: with the backend state threaded
explicitly, the result is the `Invalid` error and the state is returned
untouched, for every keychain and username. -/
theorem empty_service_invalid (keychain username : String) (b : MemBackend) :
    Entry.newInKeychainWith keychain "" username b =
      (.error (.Invalid "empty service"), b) := by
  simp [Entry.newInKeychainWith, Entry.newInKeychain]

/-- C3: `delete_password` on a Locator with no stored secret returns
`NoEntry`, and in particular never `PlatformFailure`. -/
theorem delete_absent_noEntry (loc : Locator) (b : MemBackend)
    (h : b.lookup loc = none) :
    (Entry.deletePassword ⟨loc⟩ b).1 = .error .NoEntry ∧
      ∀ d, (Entry.deletePassword ⟨loc⟩ b).1 ≠ .error (.PlatformFailure d) := by
  simp [Entry.deletePassword, MemBackend.delete, h]

/-- Witness for C3 on the empty double. -/
theorem delete_absent_noEntry_witness :
    MemBackend.lookup emptyBackend demoLoc = none ∧
      (Entry.deletePassword ⟨demoLoc⟩ emptyBackend).1 = .error .NoEntry ∧
      ∀ d, (Entry.deletePassword ⟨demoLoc⟩ emptyBackend).1 ≠
        .error (.PlatformFailure d) :=
  ⟨rfl, delete_absent_noEntry demoLoc emptyBackend rfl⟩

/-- C4: whenever `delete_password` succeeds, an immediately subsequent
`get_password` on the same Locator returns `NoEntry`. -/
theorem get_after_delete_noEntry (loc : Locator) (b b' : MemBackend)
    (h : Entry.deletePassword ⟨loc⟩ b = (.ok (), b')) :
    (Entry.getPassword ⟨loc⟩ b').1 = .error .NoEntry := by
  unfold Entry.deletePassword MemBackend.delete at h
  cases hl : b.lookup loc with
  | none => rw [hl] at h; exact absurd (congrArg Prod.fst h) (by simp)
  | some v =>
      rw [hl] at h
      have hb' : b' = { b with entries := removeEntry b.entries loc } :=
        (congrArg Prod.snd h).symm
      subst hb'
      simp [Entry.getPassword, MemBackend.retrieve, MemBackend.lookup,
        findEntry_removeEntry]

/-- Witness for C4 on a double holding the spec scenario secret. -/
theorem get_after_delete_noEntry_witness :
    Entry.deletePassword ⟨demoLoc⟩ demoBackend = (.ok (), ⟨noMeta, []⟩) ∧
      (Entry.getPassword ⟨demoLoc⟩ ⟨noMeta, []⟩).1 = .error .NoEntry :=
  ⟨rfl, get_after_delete_noEntry demoLoc demoBackend ⟨noMeta, []⟩ rfl⟩

/-- C5: two successive `set_password` calls with different values followed by
`get_password` return the second value — repeated stores overwrite (last
write wins) rather than append or fail. -/
theorem overwrite_last_write_wins (loc : Locator) (s1 s2 : Secret) (b : MemBackend)
    (h : loc.valid) (hne : s1 ≠ s2) :
    (Entry.setPassword ⟨loc⟩ s1 b).1 = .ok () ∧
      (Entry.setPassword ⟨loc⟩ s2 ((Entry.setPassword ⟨loc⟩ s1 b).2)).1 = .ok () ∧
      (Entry.getPassword ⟨loc⟩
        ((Entry.setPassword ⟨loc⟩ s2 ((Entry.setPassword ⟨loc⟩ s1 b).2)).2)).1 =
        .ok s2 := by
  refine ⟨rfl, rfl, ?_⟩
  simp [Entry.getPassword, Entry.setPassword, MemBackend.retrieve, MemBackend.store,
    MemBackend.lookup, findEntry]

/-- Witness for C5 at the spec scenario locator with two distinct secrets. -/
theorem overwrite_last_write_wins_witness :
    Locator.valid demoLoc ∧ "first" ≠ "second" ∧
      (Entry.getPassword ⟨demoLoc⟩
        ((Entry.setPassword ⟨demoLoc⟩ "second"
          ((Entry.setPassword ⟨demoLoc⟩ "first" emptyBackend).2)).2)).1 =
        .ok "second" :=
  ⟨by decide, by decide,
    (overwrite_last_write_wins demoLoc "first" "second" emptyBackend
      (by decide) (by decide)).2.2⟩

/-- C6: for every keychain, service and username, Entry construction leaves
the backend state unchanged, its result does not depend on the backend state
at all, and it succeeds exactly when the service is non-empty — it fails only
on malformed locator input, namely an empty service. -/
theorem construction_pure_validates_only_service (k s u : String) (b b' : MemBackend) :
    (Entry.newInKeychainWith k s u b).2 = b ∧
      (Entry.newInKeychainWith k s u b).1 = (Entry.newInKeychainWith k s u b').1 ∧
      ((∃ e, (Entry.newInKeychainWith k s u b).1 = .ok e) ↔ s ≠ "") := by
  refine ⟨rfl, rfl, ?_⟩
  by_cases h : s = "" <;> simp [Entry.newInKeychainWith, Entry.newInKeychain, h]

/-- C7: the entry bound by the CLI carries, as username, the caller-supplied
value when one was given and otherwise the OS login identity returned by the
external login-name provider, resolved before the locator is bound. -/
theorem username_resolution (args : Cli) (osLogin : String) :
    (args.username = none → (cliEntry args osLogin).locator.username = osLogin) ∧
      ∀ u, args.username = some u → (cliEntry args osLogin).locator.username = u := by
  constructor
  · intro h; simp [cliEntry, cliLocator, h]
  · intro u h; simp [cliEntry, cliLocator, h]

/-- CLI arguments leaving the username to be resolved from the OS login. -/
def argsNoUser : Cli := ⟨0, "default", "keyring", none, .get⟩

/-- CLI arguments with an explicit username. -/
def argsWithUser : Cli := ⟨0, "default", "keyring", some "bob", .get⟩

/-- Witness for C7 in both directions of the option. -/
theorem username_resolution_witness :
    (argsNoUser.username = none →
        (cliEntry argsNoUser "alice").locator.username = "alice") ∧
      (argsWithUser.username = some "bob" →
        (cliEntry argsWithUser "alice").locator.username = "bob") :=
  ⟨(username_resolution argsNoUser "alice").1,
    (username_resolution argsWithUser "alice").2 "bob"⟩

/-- C8: after a store, `get_password_and_credential` returns the secret with
metadata equal to what the double stored; on a double whose generated
metadata is empty it returns the secret with an empty metadata mapping rather
than an error. -/
theorem get_password_and_credential_metadata (loc : Locator) (sec : Secret)
    (b : MemBackend) (h : loc.valid) :
    (Entry.getPasswordAndCredential ⟨loc⟩ ((Entry.setPassword ⟨loc⟩ sec b).2)).1 =
        .ok ⟨loc, sec, b.gen loc⟩ ∧
      (b.gen loc = [] →
        (Entry.getPasswordAndCredential ⟨loc⟩ ((Entry.setPassword ⟨loc⟩ sec b).2)).1 =
          .ok ⟨loc, sec, []⟩) := by
  constructor
  · simp [Entry.getPasswordAndCredential, Entry.setPassword,
      MemBackend.retrieveWithCredential, MemBackend.store, MemBackend.lookup, findEntry]
  · intro hg
    simp [Entry.getPasswordAndCredential, Entry.setPassword,
      MemBackend.retrieveWithCredential, MemBackend.store, MemBackend.lookup,
      findEntry, hg]

/-- Witness for C8 on a metadata-supplying double and on a metadata-free one. -/
theorem get_password_and_credential_metadata_witness :
    (Entry.getPasswordAndCredential ⟨demoLoc⟩
        ((Entry.setPassword ⟨demoLoc⟩ "s3cr3t" emptyMetaBackend).2)).1 =
        .ok ⟨demoLoc, "s3cr3t", [("account", "alice")]⟩ ∧
      (Entry.getPasswordAndCredential ⟨demoLoc⟩
        ((Entry.setPassword ⟨demoLoc⟩ "s3cr3t" emptyBackend).2)).1 =
        .ok ⟨demoLoc, "s3cr3t", []⟩ :=
  ⟨(get_password_and_credential_metadata demoLoc "s3cr3t" emptyMetaBackend
      (by decide)).1,
    (get_password_and_credential_metadata demoLoc "s3cr3t" emptyBackend
      (by decide)).2 rfl⟩

/-- C9: when the Set command has no password argument and the terminal read
fails, the CLI reports that no password was set and the backend state is
unchanged — `set_password` is never invoked. -/
theorem tty_failure_no_set (args : Cli) (osLogin : String) (b : MemBackend)
    (h : args.command = .set none) :
    executeArgs args none osLogin b =
      ([.err "(Failed to read password, so none set.)"], b) := by
  simp [executeArgs, h]

/-- CLI arguments for Set without a password argument. -/
def argsSetPrompt : Cli := ⟨0, "default", "keyring", none, .set none⟩

/-- Witness for C9 on the empty double. -/
theorem tty_failure_no_set_witness :
    argsSetPrompt.command = Command.set none ∧
      executeArgs argsSetPrompt none "alice" emptyBackend =
        ([.err "(Failed to read password, so none set.)"], emptyBackend) :=
  ⟨rfl, tty_failure_no_set argsSetPrompt "alice" emptyBackend rfl⟩

/-- C10: on a successful Get, with verbosity zero the CLI prints only the
password line, and with any positive verbosity it prints exactly that same
output followed by the one credential-metadata line. -/
theorem verbose_controls_metadata_line (v : Nat) (c : Credential) (hv : 0 < v) :
    executeGetPasswordAndCredential 0 (.ok c) =
        [.out ("Password is \x27" ++ c.secret ++ "\x27")] ∧
      executeGetPasswordAndCredential v (.ok c) =
        executeGetPasswordAndCredential 0 (.ok c) ++
          [.out ("Credential is: " ++ c.debugStr)] := by
  constructor
  · simp [executeGetPasswordAndCredential]
  · simp [executeGetPasswordAndCredential, hv]

/-- The credential of the spec scenario, without metadata. -/
def demoCred : Credential := ⟨demoLoc, "s3cr3t", []⟩

/-- Witness for C10 at verbosity one. -/
theorem verbose_controls_metadata_line_witness :
    (0 : Nat) < 1 ∧
      (executeGetPasswordAndCredential 0 (.ok demoCred) =
          [.out ("Password is \x27" ++ demoCred.secret ++ "\x27")] ∧
        executeGetPasswordAndCredential 1 (.ok demoCred) =
          executeGetPasswordAndCredential 0 (.ok demoCred) ++
            [.out ("Credential is: " ++ demoCred.debugStr)]) :=
  ⟨by decide, verbose_controls_metadata_line 1 demoCred (by decide)⟩

end Keyring
